import Mathlib

/-!
Shallow embedding of the Ulisha-Store storefront client
(src/components/ProductCard.tsx, src/pages/ProductDetails.tsx,
the OrderReceipt component and the PWA bootstrap file).

JavaScript numbers are modelled as rationals (ℚ); the values that occur
(ratings 1..5, prices, counts) are exact in that range.  Platform
functions that the repository merely calls (Intl.NumberFormat, Date
parsing, toLocaleDateString, toLocaleString) are abstracted as function
parameters: the code under verification only builds their arguments and
composes their results.  Remote (supabase) calls are modelled against an
explicit database value, with a Boolean failure flag per call so that
both the success and the thrown-error paths of every handler exist in
the model; the sequence of issued backend calls is recorded as a trace.
-/

/-- A row of the `product_ratings` table: one user's rating of one product. -/
structure RatingRow where
  product_id : String
  user_id : String
  rating : ℚ
deriving DecidableEq, Repr

/-- The `Product` record as used by ProductCard and ProductDetails
(`rating` may be absent/null, which JavaScript sees as falsy). -/
structure Product where
  id : String
  name : String
  price : ℚ
  image : String
  category : String
  description : String
  rating : Option ℚ
  seller_phone : Option String
  store_id : Option String
deriving DecidableEq, Repr

/-- The remote backend state the client reads and writes:
`products`, `product_images` (product_id, image_url) and `product_ratings`. -/
structure Database where
  products : List Product
  product_images : List (String × String)
  product_ratings : List RatingRow
deriving DecidableEq, Repr

/-- `.from('products').select('*').eq('id', pid).single()` — the product row. -/
def findProduct (db : Database) (pid : String) : Option Product :=
  db.products.find? (fun p => p.id == pid)

/-- `.from('product_images').select('image_url').eq('product_id', pid)`. -/
def imagesFor (db : Database) (pid : String) : List String :=
  (db.product_images.filter (fun r => r.1 == pid)).map (fun r => r.2)

/-- `.from('product_ratings').select('rating').eq('product_id', pid)` —
the rating column of every rating row of this product. -/
def selectRatingsFor (db : Database) (pid : String) : List ℚ :=
  (db.product_ratings.filter (fun r => r.product_id == pid)).map (fun r => r.rating)

/-- `.from('product_ratings').select('rating').eq('product_id', pid).eq('user_id', uid)`. -/
def userRatingsFor (db : Database) (pid uid : String) : List ℚ :=
  (db.product_ratings.filter (fun r => r.product_id == pid && r.user_id == uid)).map
    (fun r => r.rating)

/-- `.from('product_ratings').upsert(\x7b product_id, user_id, rating \x7d)`:
update the row keyed by (product_id, user_id) when it exists, insert otherwise. -/
def upsertRatingRows (rows : List RatingRow) (pid uid : String) (v : ℚ) : List RatingRow :=
  if rows.any (fun r => r.product_id == pid && r.user_id == uid) then
    rows.map (fun r =>
      if r.product_id == pid && r.user_id == uid then
        { r with rating := v }
      else r)
  else
    rows ++ [⟨pid, uid, v⟩]

/-- `.from('products').update(\x7b rating \x7d).eq('id', pid)`. -/
def updateProductRating (db : Database) (pid : String) (v : ℚ) : Database :=
  { db with
    products := db.products.map (fun p =>
      if p.id == pid then { p with rating := some v } else p) }

/-! ## Price formatting (ProductCard.formattedPrice and the detail page price block)

`Intl.NumberFormat` is a platform service; the repository code only
chooses its options and applies it, so the formatter is a parameter and
the option object each call site constructs is embedded literally. -/

/-- The option object passed to `new Intl.NumberFormat(locale, \x7b style, currency \x7d)`. -/
structure NumberFormatOptions where
  locale : String
  style : String
  currency : String
deriving DecidableEq, Repr

/-- The options ProductCard.tsx builds for `formattedPrice`. -/
def productCardPriceOptions : NumberFormatOptions :=
  ⟨"en-NG", "currency", "NGN"⟩

/-- The options the ProductDetails price block builds. -/
def productDetailsPriceOptions : NumberFormatOptions :=
  ⟨"en-NG", "currency", "NGN"⟩

/-- `formattedPrice` of ProductCard: the Intl formatter for the card's
options applied to `product.price`. -/
def formattedPrice (format : NumberFormatOptions → ℚ → String) (p : Product) : String :=
  format productCardPriceOptions p.price

/-- The price string rendered by the ProductDetails page. -/
def detailsDisplayedPrice (format : NumberFormatOptions → ℚ → String) (p : Product) : String :=
  format productDetailsPriceOptions p.price

/-! ## Image gallery navigation (ProductDetails.nextImage / prevImage)

The index arithmetic on `currentImageIndex` over `productImages.length`;
JavaScript `%` on the non-negative operands that occur here agrees with
`Int.emod`. -/

/-- `setCurrentImageIndex((prev) => (prev + 1) % productImages.length)`. -/
def nextImage (i n : ℤ) : ℤ :=
  (i + 1) % n

/-- `setCurrentImageIndex((prev) => (prev - 1 + productImages.length) % productImages.length)`. -/
def prevImage (i n : ℤ) : ℤ :=
  (i - 1 + n) % n

/-! ## Star rendering (ProductCard) and the detail page's initial rating

A star at index `i ∈ 0..4` is filled iff `(product.rating || 5) > i`. -/

/-- JavaScript `product.rating || 5`: 5 when the field is absent, null or 0. -/
def ratingOrDefault : Option ℚ → ℚ
  | none => 5
  | some r => if r = 0 then 5 else r

/-- How many of the five stars of the product card are filled. -/
def filledStars (r : Option ℚ) : ℕ :=
  (List.range 5).countP (fun (i : ℕ) => decide ((i : ℚ) < ratingOrDefault r))

/-! ## Rating-fold helper: the client-side average

`ratings.reduce((sum, item) => sum + item.rating, 0) / ratings.length`. -/

/-- The local aggregate ProductDetails computes from the fetched rating rows. -/
def clientAvg (ratings : List ℚ) : ℚ :=
  ratings.foldl (fun sum r => sum + r) 0 / ratings.length

theorem clientAvg_eq_mean (ratings : List ℚ) :
    clientAvg ratings = ratings.sum / ratings.length := by
  unfold clientAvg
  rw [List.sum_eq_foldl]

/-! ## UI effects and the clipboard / add-to-cart handlers -/

/-- The remote calls the client can issue, with their request payloads. -/
inductive BackendOp
  | selectProduct (pid : String)
  | selectImages (pid : String)
  | selectUserRating (pid uid : String)
  | upsertRating (pid uid : String) (value : ℚ)
  | selectRatings (pid : String)
  | updateProduct (pid : String) (newRating : ℚ)
deriving DecidableEq, Repr

/-- Local browser effects a handler performs, in order.  `scheduleAfter`
is a `setTimeout`: the nested list runs after the given milliseconds. -/
inductive UIEvent
  | clipboardWrite (text : String)
  | notify (message : String) (success : Bool)
  | setLinkCopied (value : Bool)
  | scheduleAfter (ms : ℕ) (later : List UIEvent)
  | consoleError (context : String)
  | navigateTo (path : String)
  | setWindowLocation (href : String)
deriving Repr

/-- `getProductLink` — identical in ProductCard (over `product.id`) and in
ProductDetails (over the `productId` route param). -/
def getProductLink (pid : String) : String :=
  "https://ulishastore.netlify.app/product/" ++ pid

/-- `copyToClipboard` (same body in ProductCard and ProductDetails):
write the product link; on fulfilment set the copied flag, show the
success notification and schedule the flag reset after 2000 ms; on
rejection log and show the error notification. -/
def copyToClipboard (pid : String) (writeSucceeds : Bool) : List UIEvent :=
  let link := getProductLink pid
  UIEvent.clipboardWrite link ::
    (if writeSucceeds then
      [UIEvent.setLinkCopied true,
       UIEvent.notify "Link copied to clipboard!" true,
       UIEvent.scheduleAfter 2000 [UIEvent.setLinkCopied false]]
    else
      [UIEvent.consoleError "Failed to copy link: ",
       UIEvent.notify "Failed to copy link" false])

/-- Outcome of an add-to-cart attempt: the cart contents afterwards and
the browser effects, in order. -/
structure CartOutcome where
  cart : List Product
  events : List UIEvent
deriving Repr

/-- `handleAddToCart` of ProductCard.  The cart store's `addToCart` lives
outside this repository, so it is a parameter (`addFails` selects its
rejected path). -/
def cardHandleAddToCart (isLoggedIn : Bool)
    (addToCart : List Product → Product → List Product) (addFails : Bool)
    (cart : List Product) (p : Product) : CartOutcome :=
  if !isLoggedIn then
    ⟨cart, [UIEvent.navigateTo "/login"]⟩
  else if addFails then
    ⟨cart, [UIEvent.consoleError "Error adding to cart:",
            UIEvent.notify "Failed to add product to cart. Please try again." false]⟩
  else
    ⟨addToCart cart p, [UIEvent.notify "Product added to cart!" true]⟩

/-- `handleAddToCart` of ProductDetails: returns at once without a
product, redirects via `window.location` when logged out, otherwise
defers to the cart store exactly as the card does. -/
def detailsHandleAddToCart (isLoggedIn : Bool)
    (addToCart : List Product → Product → List Product) (addFails : Bool)
    (cart : List Product) (product? : Option Product) : CartOutcome :=
  match product? with
  | none => ⟨cart, []⟩
  | some p =>
    if !isLoggedIn then
      ⟨cart, [UIEvent.setWindowLocation "/login"]⟩
    else if addFails then
      ⟨cart, [UIEvent.consoleError "Error adding to cart:",
              UIEvent.notify "Failed to add product to cart. Please try again." false]⟩
    else
      ⟨addToCart cart p, [UIEvent.notify "Product added to cart!" true]⟩

/-! ## The ProductDetails page state machine -/

/-- The component state of ProductDetails touched by the fetch and the
rating handler. -/
structure DetailsState where
  loading : Bool
  product : Option Product
  productImages : List String
  rating : ℚ
  hasRated : Bool
deriving DecidableEq, Repr

/-- The `useState` initial values: loading, no product, no images,
rating 0, not yet rated. -/
def initialDetailsState : DetailsState :=
  ⟨true, none, [], 0, false⟩

/-- What `fetchProductDetails` leaves behind: the component state and the
trace of backend calls it issued, in order. -/
structure FetchOutcome where
  state : DetailsState
  ops : List BackendOp
deriving Repr

/-- `fetchProductDetails`: select the product (throwing into the catch on
error), set it and the default rating, select the extra images (again
throwing on error), prepend the main image, and for a logged-in user read
their existing rating (an error here is only skipped over).  The
`finally` clause clears `loading` on every path. -/
def fetchProductDetails (pid : String) (db : Database) (isLoggedIn : Bool)
    (user : Option String) (productFails imagesFails ratingFails : Bool)
    (st : DetailsState) : FetchOutcome :=
  let st0 := { st with loading := true }
  let ops0 := [BackendOp.selectProduct pid]
  match (if productFails then none else findProduct db pid) with
  | none =>
    ⟨{ st0 with loading := false }, ops0⟩
  | some p =>
    let st1 := { st0 with product := some p, rating := ratingOrDefault p.rating }
    let ops1 := ops0 ++ [BackendOp.selectImages pid]
    if imagesFails then
      ⟨{ st1 with loading := false }, ops1⟩
    else
      let st2 := { st1 with productImages := p.image :: imagesFor db pid }
      match isLoggedIn, user with
      | true, some uid =>
        let ops2 := ops1 ++ [BackendOp.selectUserRating pid uid]
        match (if ratingFails then [] else userRatingsFor db pid uid) with
        | [] => ⟨{ st2 with loading := false }, ops2⟩
        | r :: _ =>
          ⟨{ st2 with hasRated := true, rating := r, loading := false }, ops2⟩
      | _, _ => ⟨{ st2 with loading := false }, ops1⟩

/-- The three top-level views the component can return. -/
inductive DetailsView
  | spinner
  | notFound
  | productPage
deriving DecidableEq, Repr

/-- The component's early returns: the spinner while loading, the
not-found block without a product, the product page otherwise. -/
def renderDetails (st : DetailsState) : DetailsView :=
  if st.loading then DetailsView.spinner
  else
    match st.product with
    | none => DetailsView.notFound
    | some _ => DetailsView.productPage

/-- What `handleRating` leaves behind: the backend state, the pieces of
component state it owns, whether it redirected to login, the backend
calls issued and the browser effects, in order. -/
structure RatingOutcome where
  db : Database
  rating : ℚ
  hasRated : Bool
  redirectedToLogin : Bool
  ops : List BackendOp
  events : List UIEvent
deriving Repr

/-- `handleRating value`: redirect to login unless a user is logged in
and a product is loaded; upsert the (product, user) rating row (throwing
into the catch on error); update the local state and thank the user;
re-select every rating row of the product (throwing on error); when any
exist, write their client-computed average into the product row (that
update's own error object is never inspected, so `updateFails` merely
loses the write). -/
def handleRating (isLoggedIn : Bool) (user : Option String)
    (product? : Option Product) (db : Database) (value : ℚ)
    (upsertFails selectFails updateFails : Bool) (st : DetailsState) :
    RatingOutcome :=
  match isLoggedIn, user, product? with
  | true, some uid, some p =>
    let ops1 := [BackendOp.upsertRating p.id uid value]
    if upsertFails then
      ⟨db, st.rating, st.hasRated, false, ops1,
        [UIEvent.consoleError "Error rating product:",
         UIEvent.notify "Failed to submit rating. Please try again." false]⟩
    else
      let db1 := { db with
        product_ratings := upsertRatingRows db.product_ratings p.id uid value }
      let ops2 := ops1 ++ [BackendOp.selectRatings p.id]
      if selectFails then
        ⟨db1, value, true, false, ops2,
          [UIEvent.notify "Thank you for rating this product!" true,
           UIEvent.consoleError "Error rating product:",
           UIEvent.notify "Failed to submit rating. Please try again." false]⟩
      else
        let ratings := selectRatingsFor db1 p.id
        if 0 < ratings.length then
          let avg := clientAvg ratings
          let ops3 := ops2 ++ [BackendOp.updateProduct p.id avg]
          let db2 := if updateFails then db1 else updateProductRating db1 p.id avg
          ⟨db2, value, true, false, ops3,
            [UIEvent.notify "Thank you for rating this product!" true]⟩
        else
          ⟨db1, value, true, false, ops2,
            [UIEvent.notify "Thank you for rating this product!" true]⟩
  | _, _, _ =>
    ⟨db, st.rating, st.hasRated, true, [], [UIEvent.setWindowLocation "/login"]⟩

/-- The `products.rating` values an op trace writes back. -/
def updatePayloads (ops : List BackendOp) : List ℚ :=
  ops.filterMap (fun op =>
    match op with
    | BackendOp.updateProduct _ v => some v
    | _ => none)

/-! ## Helper lemmas about the backend model -/

theorem exists_upserted_row (rows : List RatingRow) (pid uid : String) (v : ℚ) :
    ∃ r ∈ upsertRatingRows rows pid uid v, r.product_id = pid ∧ r.rating = v := by
  unfold upsertRatingRows
  by_cases h : rows.any (fun r => r.product_id == pid && r.user_id == uid) = true
  · rw [if_pos h]
    obtain ⟨r0, hr0mem, hr0⟩ := List.any_eq_true.mp h
    have hkey : (r0.product_id == pid && r0.user_id == uid) = true := hr0
    refine ⟨{ r0 with rating := v }, ?_, ?_, rfl⟩
    · have hmem := List.mem_map_of_mem
        (fun r => if r.product_id == pid && r.user_id == uid then
          { r with rating := v } else r) hr0mem
      simpa [hkey] using hmem
    · have := (Bool.and_eq_true _ _).mp hkey
      exact eq_of_beq this.1
  · rw [if_neg h]
    exact ⟨⟨pid, uid, v⟩, List.mem_append_right _ (List.mem_singleton.mpr rfl),
      rfl, rfl⟩

theorem mem_selectRatingsFor_upsert (db : Database) (pid uid : String) (v : ℚ) :
    v ∈ selectRatingsFor
      { db with product_ratings := upsertRatingRows db.product_ratings pid uid v }
      pid := by
  obtain ⟨r, hmem, hpid, hv⟩ :=
    exists_upserted_row db.product_ratings pid uid v
  unfold selectRatingsFor
  exact List.mem_map.mpr ⟨r,
    List.mem_filter.mpr ⟨hmem, by simp [hpid]⟩, hv⟩

theorem find?_map_update (l : List Product) (pid : String) (v : ℚ) :
    (l.map (fun p => if p.id == pid then { p with rating := some v } else p)).find?
        (fun p => p.id == pid)
      = (l.find? (fun p => p.id == pid)).map
          (fun p => { p with rating := some v }) := by
  induction l with
  | nil => rfl
  | cons a l ih =>
    simp only [List.map_cons]
    by_cases h : (a.id == pid) = true
    · rw [if_pos h]
      have h2 : (({ a with rating := some v } : Product).id == pid) = true := h
      simp only [List.find?, h2, h]
      rfl
    · rw [if_neg h]
      have hb : (a.id == pid) = false := by simpa using h
      simp only [List.find?, hb]
      exact ih

theorem findProduct_updateProductRating (db : Database) (pid : String) (v : ℚ) :
    findProduct (updateProductRating db pid v) pid
      = (findProduct db pid).map (fun p => { p with rating := some v }) := by
  unfold findProduct updateProductRating
  exact find?_map_update db.products pid v

theorem findProduct_id (db : Database) (pid : String) (p : Product)
    (h : findProduct db pid = some p) : p.id = pid := by
  unfold findProduct at h
  have := List.find?_some h
  exact eq_of_beq this

theorem selectRatingsFor_products_irrel (db : Database) (pid : String)
    (v : ℚ) (qid : String) :
    selectRatingsFor (updateProductRating db qid v) pid
      = selectRatingsFor db pid := rfl

/-! ## Theorems for claims C5 and C8 -/

/-- C5: the displayed price of a product is `product.price` run through the
`en-NG`/`NGN` currency formatter, and the product card and the product
detail page build the very same formatter options, hence format the same
price identically, whatever the platform formatter does. -/
theorem price_formatting_consistent (format : NumberFormatOptions → ℚ → String)
    (p : Product) :
    formattedPrice format p = format ⟨"en-NG", "currency", "NGN"⟩ p.price ∧
    detailsDisplayedPrice format p = format ⟨"en-NG", "currency", "NGN"⟩ p.price ∧
    productCardPriceOptions = productDetailsPriceOptions ∧
    formattedPrice format p = detailsDisplayedPrice format p := by
  exact ⟨rfl, rfl, rfl, rfl⟩

theorem nextImage_eq (i n : ℤ) : nextImage i n = (i + 1) % n := rfl

theorem prevImage_eq (i n : ℤ) : prevImage i n = (i - 1 + n) % n := rfl

/-- C8: for a gallery of `n ≥ 1` images and a current index `0 ≤ i < n`,
`nextImage` is `(i+1) mod n`, `prevImage` is `(i-1+n) mod n`, both stay in
`[0, n)`, and the two are mutually inverse. -/
theorem image_navigation_cyclic (i n : ℤ) (h0 : 0 ≤ i) (hn : i < n) :
    nextImage i n = (i + 1) % n ∧
    prevImage i n = (i - 1 + n) % n ∧
    (0 ≤ nextImage i n ∧ nextImage i n < n) ∧
    (0 ≤ prevImage i n ∧ prevImage i n < n) ∧
    prevImage (nextImage i n) n = i ∧
    nextImage (prevImage i n) n = i := by
  have hnpos : 0 < n := lt_of_le_of_lt h0 hn
  have hne : n ≠ 0 := ne_of_gt hnpos
  refine ⟨rfl, rfl, ⟨Int.emod_nonneg _ hne, Int.emod_lt_of_pos _ hnpos⟩,
    ⟨Int.emod_nonneg _ hne, Int.emod_lt_of_pos _ hnpos⟩, ?_, ?_⟩
  · unfold nextImage prevImage
    rcases lt_or_eq_of_le (Int.add_one_le_iff.mpr hn) with hlt | heq
    · have h1 : (i + 1) % n = i + 1 := Int.emod_eq_of_lt (by omega) hlt
      rw [h1]
      have h2 : i + 1 - 1 + n = i + 1 * n := by ring
      rw [h2, Int.add_mul_emod_self]
      exact Int.emod_eq_of_lt h0 hn
    · have h1 : (i + 1) % n = 0 := by rw [heq, Int.emod_self]
      rw [h1]
      have h2 : (0 : ℤ) - 1 + n = i := by omega
      rw [h2]
      exact Int.emod_eq_of_lt h0 hn
  · unfold nextImage prevImage
    rcases lt_or_eq_of_le h0 with hpos | hzero
    · have h3 : (i - 1 + n) % n = i - 1 := by
        have e1 : i - 1 + n = i - 1 + 1 * n := by ring
        rw [e1, Int.add_mul_emod_self]
        exact Int.emod_eq_of_lt (by omega) (by omega)
      rw [h3]
      have h4 : i - 1 + 1 = i := by ring
      rw [h4]
      exact Int.emod_eq_of_lt h0 hn
    · have h3 : (i - 1 + n) % n = n - 1 := by
        have e1 : i - 1 + n = n - 1 := by omega
        rw [e1]
        exact Int.emod_eq_of_lt (by omega) (by omega)
      rw [h3]
      have h4 : n - 1 + 1 = n := by ring
      rw [h4, Int.emod_self]
      omega

/-- Witness for C8 at i = 2, n = 3. -/
theorem image_navigation_cyclic_witness :
    (0 : ℤ) ≤ 2 ∧ (2 : ℤ) < 3 ∧
    (nextImage 2 3 = (2 + 1) % 3 ∧
     prevImage 2 3 = (2 - 1 + 3) % 3 ∧
     (0 ≤ nextImage 2 3 ∧ nextImage 2 3 < 3) ∧
     (0 ≤ prevImage 2 3 ∧ prevImage 2 3 < 3) ∧
     prevImage (nextImage 2 3) 3 = 2 ∧
     nextImage (prevImage 2 3) 3 = 2) :=
  ⟨by decide, by decide, image_navigation_cyclic 2 3 (by decide) (by decide)⟩

/-! ## Claims C1–C3: the rating submission flow -/

/-- C1: after a logged-in user submits rating `v` on a loaded product,
the value written into the product record equals the arithmetic mean
(sum divided by count) of all ratings recorded for that product, the
just-upserted `v` among them. -/
theorem handleRating_writes_mean (db : Database) (p : Product) (uid : String)
    (v : ℚ) (st : DetailsState) (hp : findProduct db p.id = some p) :
    let res := handleRating true (some uid) (some p) db v false false false st
    let rs := selectRatingsFor res.db p.id
    v ∈ rs ∧ rs ≠ [] ∧
      findProduct res.db p.id = some { p with rating := some (rs.sum / rs.length) } := by
  intro res rs
  have hmem := mem_selectRatingsFor_upsert db p.id uid v
  have hlen : 0 < (selectRatingsFor
      { db with product_ratings := upsertRatingRows db.product_ratings p.id uid v }
      p.id).length := List.length_pos_of_mem hmem
  have hdb : res.db = updateProductRating
      { db with product_ratings := upsertRatingRows db.product_ratings p.id uid v } p.id
      (clientAvg (selectRatingsFor
        { db with product_ratings := upsertRatingRows db.product_ratings p.id uid v } p.id)) := by
    show (handleRating true (some uid) (some p) db v false false false st).db = _
    unfold handleRating
    simp only [if_pos hlen]
    rfl
  have hrs : rs = selectRatingsFor
      { db with product_ratings := upsertRatingRows db.product_ratings p.id uid v } p.id := by
    show selectRatingsFor res.db p.id = _
    rw [hdb]
    exact selectRatingsFor_products_irrel _ p.id _ p.id
  refine ⟨?_, ?_, ?_⟩
  · rw [hrs]; exact hmem
  · rw [hrs]; exact List.ne_nil_of_mem hmem
  · have hp1 : findProduct
        { db with product_ratings := upsertRatingRows db.product_ratings p.id uid v }
        p.id = some p := hp
    rw [hdb, findProduct_updateProductRating, hp1, hrs]
    simp [clientAvg_eq_mean]

/-- Witness for C1: user u1 rates product p1 with 4 over a one-product
database holding no prior rating. -/
theorem handleRating_writes_mean_witness :
    let res := handleRating true (some "u1")
      (some ⟨"p1", "Widget", 100, "img", "cat", "desc", none, none, none⟩)
      ⟨[⟨"p1", "Widget", 100, "img", "cat", "desc", none, none, none⟩], [], []⟩
      4 false false false initialDetailsState
    let rs := selectRatingsFor res.db "p1"
    (4 : ℚ) ∈ rs ∧ rs ≠ [] ∧
      findProduct res.db "p1"
        = some ⟨"p1", "Widget", 100, "img", "cat", "desc",
            some (rs.sum / rs.length), none, none⟩ :=
  handleRating_writes_mean
    ⟨[⟨"p1", "Widget", 100, "img", "cat", "desc", none, none, none⟩], [], []⟩
    ⟨"p1", "Widget", 100, "img", "cat", "desc", none, none, none⟩
    "u1" 4 initialDetailsState (by decide)

/-- C2: with every remote call succeeding, the aggregation flow issues
exactly, and in this order: the read of the user's existing rating (the
last call of the page fetch), the upsert of the new rating, the
re-selection of the product's ratings (the remote half of the average
recomputation), and the write-back of the average.  The trace order is
the sequential await order: each call completes before the next one is
issued. -/
theorem rating_flow_sequential_ops (db : Database) (p : Product) (uid : String)
    (v : ℚ) (st st' : DetailsState) (hp : findProduct db p.id = some p) :
    let fres := fetchProductDetails p.id db true (some uid) false false false st
    let hres := handleRating true (some uid) (some p) db v false false false st'
    fres.ops = [BackendOp.selectProduct p.id, BackendOp.selectImages p.id,
      BackendOp.selectUserRating p.id uid] ∧
    hres.ops = [BackendOp.upsertRating p.id uid v, BackendOp.selectRatings p.id,
      BackendOp.updateProduct p.id (clientAvg (selectRatingsFor
        { db with product_ratings := upsertRatingRows db.product_ratings p.id uid v }
        p.id))] := by
  intro fres hres
  constructor
  · show (fetchProductDetails p.id db true (some uid) false false false st).ops = _
    unfold fetchProductDetails
    simp only [hp]
    rcases h2 : userRatingsFor db p.id uid with _ | ⟨r, rest⟩ <;> simp [h2]
  · show (handleRating true (some uid) (some p) db v false false false st').ops = _
    have hlen : 0 < (selectRatingsFor
        { db with product_ratings := upsertRatingRows db.product_ratings p.id uid v }
        p.id).length :=
      List.length_pos_of_mem (mem_selectRatingsFor_upsert db p.id uid v)
    unfold handleRating
    simp only [if_pos hlen]
    rfl

/-- Witness for C2 at the one-product database of the C1 witness. -/
theorem rating_flow_sequential_ops_witness :
    let fres := fetchProductDetails "p1"
      ⟨[⟨"p1", "Widget", 100, "img", "cat", "desc", none, none, none⟩], [], []⟩
      true (some "u1") false false false initialDetailsState
    let hres := handleRating true (some "u1")
      (some ⟨"p1", "Widget", 100, "img", "cat", "desc", none, none, none⟩)
      ⟨[⟨"p1", "Widget", 100, "img", "cat", "desc", none, none, none⟩], [], []⟩
      4 false false false initialDetailsState
    fres.ops = [BackendOp.selectProduct "p1", BackendOp.selectImages "p1",
      BackendOp.selectUserRating "p1" "u1"] ∧
    hres.ops = [BackendOp.upsertRating "p1" "u1" 4, BackendOp.selectRatings "p1",
      BackendOp.updateProduct "p1"
        (clientAvg (selectRatingsFor
          ⟨[⟨"p1", "Widget", 100, "img", "cat", "desc", none, none, none⟩], [],
            upsertRatingRows [] "p1" "u1" 4⟩
          "p1"))] :=
  rating_flow_sequential_ops
    ⟨[⟨"p1", "Widget", 100, "img", "cat", "desc", none, none, none⟩], [], []⟩
    ⟨"p1", "Widget", 100, "img", "cat", "desc", none, none, none⟩
    "u1" 4 initialDetailsState initialDetailsState (by decide)

/-- The spec's delegation property, modelled from its words: every value
the flow writes into `products.rating` was produced by the backend — it
is among the rating values the backend returned to the client during
that flow (the selected rating rows of the product), rather than a
number computed by local client code. -/
def delegatedAggregation (res : RatingOutcome) (pid : String) : Prop :=
  ∀ w ∈ updatePayloads res.ops, w ∈ selectRatingsFor res.db pid

theorem updatePayloads_handleRating (db : Database) (p : Product)
    (uid : String) (v : ℚ) (st : DetailsState) :
    updatePayloads (handleRating true (some uid) (some p) db v
        false false false st).ops
      = [clientAvg (selectRatingsFor
          { db with product_ratings := upsertRatingRows db.product_ratings p.id uid v }
          p.id)] := by
  have hlen : 0 < (selectRatingsFor
      { db with product_ratings := upsertRatingRows db.product_ratings p.id uid v }
      p.id).length :=
    List.length_pos_of_mem (mem_selectRatingsFor_upsert db p.id uid v)
  unfold handleRating
  simp only [if_pos hlen]
  rfl

/-- Counterexample to C3: user u1 submits 3 on a product another user
rated 2.  The backend only ever returns the rating values 2 and 3, but
the flow writes back 5/2 — a value the client computed itself, not one
the backend produced. -/
theorem rating_aggregation_not_delegated :
    ¬ delegatedAggregation
      (handleRating true (some "u1")
        (some ⟨"p1", "Widget", 100, "img", "cat", "desc", none, none, none⟩)
        ⟨[⟨"p1", "Widget", 100, "img", "cat", "desc", none, none, none⟩], [],
          [⟨"p1", "u2", 2⟩]⟩
        3 false false false initialDetailsState) "p1" := by
  intro h
  have hpay : updatePayloads
      (handleRating true (some "u1")
        (some ⟨"p1", "Widget", 100, "img", "cat", "desc", none, none, none⟩)
        ⟨[⟨"p1", "Widget", 100, "img", "cat", "desc", none, none, none⟩], [],
          [⟨"p1", "u2", 2⟩]⟩
        3 false false false initialDetailsState).ops
      = [clientAvg [2, 3]] := rfl
  have havg : clientAvg [2, 3] = 5 / 2 := by
    simp [clientAvg, List.foldl]
    norm_num
  have hmem : (5 : ℚ) / 2 ∈ updatePayloads
      (handleRating true (some "u1")
        (some ⟨"p1", "Widget", 100, "img", "cat", "desc", none, none, none⟩)
        ⟨[⟨"p1", "Widget", 100, "img", "cat", "desc", none, none, none⟩], [],
          [⟨"p1", "u2", 2⟩]⟩
        3 false false false initialDetailsState).ops := by
    rw [hpay, havg]
    exact List.mem_singleton.mpr rfl
  have h2 := h (5 / 2) hmem
  have hsel : selectRatingsFor
      (handleRating true (some "u1")
        (some ⟨"p1", "Widget", 100, "img", "cat", "desc", none, none, none⟩)
        ⟨[⟨"p1", "Widget", 100, "img", "cat", "desc", none, none, none⟩], [],
          [⟨"p1", "u2", 2⟩]⟩
        3 false false false initialDetailsState).db "p1" = [2, 3] := rfl
  rw [hsel] at h2
  have hno : ¬ ((5 : ℚ) / 2 ∈ ([2, 3] : List ℚ)) := by norm_num
  exact hno h2

/-- C3 as amended: the client itself computes the rating aggregate — on
the success path the one value written back into the product record is
exactly the client-side fold of the backend-returned rating rows divided
by their count, computed locally. -/
theorem rating_aggregation_computed_locally (db : Database) (p : Product)
    (uid : String) (v : ℚ) (st : DetailsState) :
    updatePayloads (handleRating true (some uid) (some p) db v
        false false false st).ops
      = [clientAvg (selectRatingsFor
          { db with product_ratings := upsertRatingRows db.product_ratings p.id uid v }
          p.id)] :=
  updatePayloads_handleRating db p uid v st

/-! ## Claims C6, C7, C9 -/

/-- C6: the copy-link action writes exactly the store URL followed by
the product id to the clipboard; on success it shows the success
notification and schedules the copied-indicator reset after 2000 ms, on
failure it shows the error notification. -/
theorem copy_link_events (pid : String) :
    copyToClipboard pid true
      = [UIEvent.clipboardWrite ("https://ulishastore.netlify.app/product/" ++ pid),
         UIEvent.setLinkCopied true,
         UIEvent.notify "Link copied to clipboard!" true,
         UIEvent.scheduleAfter 2000 [UIEvent.setLinkCopied false]] ∧
    copyToClipboard pid false
      = [UIEvent.clipboardWrite ("https://ulishastore.netlify.app/product/" ++ pid),
         UIEvent.consoleError "Failed to copy link: ",
         UIEvent.notify "Failed to copy link" false] :=
  ⟨rfl, rfl⟩

/-- C9: while no user is logged in, both add-to-cart handlers and the
rating handler only redirect to the login page: the cart is unchanged,
the cart store is never invoked, no backend call is issued and the
backend state is unchanged. -/
theorem logged_out_handlers_redirect
    (addToCart : List Product → Product → List Product) (addFails : Bool)
    (cart : List Product) (p : Product) (user : Option String) (db : Database)
    (v : ℚ) (uf sf upf : Bool) (st : DetailsState) :
    cardHandleAddToCart false addToCart addFails cart p
      = ⟨cart, [UIEvent.navigateTo "/login"]⟩ ∧
    detailsHandleAddToCart false addToCart addFails cart (some p)
      = ⟨cart, [UIEvent.setWindowLocation "/login"]⟩ ∧
    handleRating false user (some p) db v uf sf upf st
      = ⟨db, st.rating, st.hasRated, true, [], [UIEvent.setWindowLocation "/login"]⟩ := by
  refine ⟨rfl, rfl, ?_⟩
  cases user <;> rfl

/-- C7: the detail page renders only the spinner while `loading` is set;
`fetchProductDetails` ends with `loading` false on every path (all calls
succeeding or any of them throwing), after which the spinner is no
longer rendered — the not-found view when no product was obtained, the
product page otherwise. -/
theorem fetch_clears_loading (pid : String) (db : Database) (isLoggedIn : Bool)
    (user : Option String) (productFails imagesFails ratingFails : Bool)
    (st : DetailsState) :
    let res := fetchProductDetails pid db isLoggedIn user
      productFails imagesFails ratingFails st
    renderDetails { st with loading := true } = DetailsView.spinner ∧
    res.state.loading = false ∧
    renderDetails res.state ≠ DetailsView.spinner ∧
    renderDetails res.state = (match res.state.product with
      | none => DetailsView.notFound
      | some _ => DetailsView.productPage) := by
  intro res
  have hld : res.state.loading = false := by
    show (fetchProductDetails pid db isLoggedIn user
      productFails imagesFails ratingFails st).state.loading = false
    unfold fetchProductDetails
    repeat' (first | rfl | split)
  have hrender : renderDetails res.state = (match res.state.product with
      | none => DetailsView.notFound
      | some _ => DetailsView.productPage) := by
    unfold renderDetails
    rw [hld]
    simp
  refine ⟨rfl, hld, ?_, hrender⟩
  rw [hrender]
  cases res.state.product <;> simp

/-- C10: a product whose rating field is absent, null or 0 renders with
all five stars filled and the detail page initialises its displayed
rating to 5; in general the card fills exactly `⌈rating⌉` stars for a
rating in (0, 5]. -/
theorem default_and_ceil_stars (r : ℚ) (h0 : 0 < r) (h5 : r ≤ 5) :
    filledStars none = 5 ∧ filledStars (some 0) = 5 ∧
    ratingOrDefault none = 5 ∧ ratingOrDefault (some 0) = 5 ∧
    (∀ (pid : String) (db : Database) (user : Option String)
        (imf rf : Bool) (st : DetailsState) (p : Product),
      findProduct db pid = some p → (p.rating = none ∨ p.rating = some 0) →
      (fetchProductDetails pid db false user false imf rf st).state.rating = 5) ∧
    filledStars (some r) = (⌈r⌉).toNat := by
  have hne : r ≠ 0 := ne_of_gt h0
  have hcpos : 0 < ⌈r⌉ := Int.ceil_pos.mpr h0
  have hc5 : ⌈r⌉ ≤ 5 := Int.ceil_le.mpr (by exact_mod_cast h5)
  refine ⟨rfl, rfl, rfl, rfl, ?_, ?_⟩
  · intro pid db user imf rf st p hfind hr0
    unfold fetchProductDetails
    simp only [hfind]
    have h5r : ratingOrDefault p.rating = 5 := by
      rcases hr0 with h | h <;> simp [h, ratingOrDefault]
    cases imf <;> simp [h5r]
  · unfold filledStars
    have hrd : ratingOrDefault (some r) = r := by simp [ratingOrDefault, hne]
    simp only [hrd]
    have hfun : (fun i : ℕ => decide ((i : ℚ) < r))
        = (fun i : ℕ => decide ((i : ℤ) < ⌈r⌉)) := by
      funext i
      apply decide_eq_decide.mpr
      rw [Int.lt_ceil]
      constructor
      · intro hh; exact_mod_cast hh
      · intro hh; exact_mod_cast hh
    rw [hfun]
    generalize ⌈r⌉ = c at hcpos hc5
    interval_cases c <;> rfl

/-- Witness for C10 at rating 7/2 (fills 4 stars). -/
theorem default_and_ceil_stars_witness :
    (0 : ℚ) < 7 / 2 ∧ (7 : ℚ) / 2 ≤ 5 ∧
      (filledStars none = 5 ∧ filledStars (some 0) = 5 ∧
       ratingOrDefault none = 5 ∧ ratingOrDefault (some 0) = 5 ∧
       (∀ (pid : String) (db : Database) (user : Option String)
           (imf rf : Bool) (st : DetailsState) (p : Product),
         findProduct db pid = some p → (p.rating = none ∨ p.rating = some 0) →
         (fetchProductDetails pid db false user false imf rf st).state.rating = 5) ∧
       filledStars (some (7 / 2)) = (⌈(7 : ℚ) / 2⌉).toNat) :=
  ⟨by norm_num, by norm_num,
    default_and_ceil_stars (7 / 2) (by norm_num) (by norm_num)⟩

/-! ## The OrderReceipt component (claim C4)

Date parsing (`new Date(...).getTime()`), `toLocaleDateString` and
`toLocaleString` are platform services the component merely applies, so
they are fields of a `Platform` parameter.  The rendered receipt markup
is modelled by its text lines; `handlePrint` and `handleDownload` are
effect traces over the already-rendered content. -/

/-- One entry of `order.items`. -/
structure OrderItem where
  productName : String
  productImage : String
  quantity : ℕ
  price : ℚ
deriving DecidableEq, Repr

/-- The `Order` record the receipt component receives. -/
structure Order where
  id : String
  created_at : String
  total : ℚ
  status : String
  delivery_name : String
  delivery_phone : String
  delivery_address : String
  payment_ref : Option String
  payment_method : Option String
  items : List OrderItem
deriving DecidableEq, Repr

/-- The browser/date services the component calls but does not define. -/
structure Platform where
  getTime : String → ℤ
  localeDateString : String → String
  localeString : ℚ → String

/-- `generateVerificationCode`: uppercase of the first 6 characters of
the order id concatenated with the last 5 characters of the decimal
epoch-millisecond timestamp of `created_at`. -/
def generateVerificationCode (plat : Platform) (o : Order) : String :=
  (o.id.take 6 ++ (toString (plat.getTime o.created_at)).takeRight 5).toUpper

/-- The text of the rendered receipt view, line by line — a pure
function of the already-fetched order data. -/
def receiptContent (plat : Platform) (o : Order) : List String :=
  ["Ulisha Store",
   "Order ID: " ++ o.id.take 8,
   "Date: " ++ plat.localeDateString o.created_at,
   "Total: ₦" ++ plat.localeString o.total,
   "Delivery Info",
   "Name: " ++ o.delivery_name,
   "Phone: " ++ o.delivery_phone,
   "Address: " ++ o.delivery_address,
   "Items"]
  ++ o.items.map (fun it =>
      toString it.quantity ++ " x " ++ it.productName ++ " - ₦"
        ++ plat.localeString it.price)
  ++ ["Verification Code", generateVerificationCode plat o]

/-- Browser effects the receipt buttons can perform. -/
inductive BrowserEffect
  | openWindow (url target : String)
  | writeDocument (content : List String)
  | printDialog
  | closeWindow
  | createBlob (content : List String) (mime : String)
  | triggerDownload (filename : String)
  | backendCall (op : BackendOp)
deriving Repr

/-- Whether an effect is a backend request. -/
def BrowserEffect.isBackendCall : BrowserEffect → Bool
  | BrowserEffect.backendCall _ => true
  | _ => false

/-- `handlePrint`: open a blank window, write the receipt markup into
it, print it and close it. -/
def handlePrint (plat : Platform) (o : Order) : List BrowserEffect :=
  [BrowserEffect.openWindow "" "_blank",
   BrowserEffect.writeDocument (receiptContent plat o),
   BrowserEffect.printDialog,
   BrowserEffect.closeWindow]

/-- `handleDownload`: build an HTML blob of the receipt markup and
trigger its download under `order-receipt-<first 8 of id>.html`. -/
def handleDownload (plat : Platform) (o : Order) : List BrowserEffect :=
  [BrowserEffect.createBlob (receiptContent plat o) "text/html",
   BrowserEffect.triggerDownload ("order-receipt-" ++ o.id.take 8 ++ ".html")]

/-- C4: the receipt output for print and for download is generated
client-side purely from the order data: equal order data yields
identical effect traces and both channels carry the same
`receiptContent`; the verification code is the uppercase concatenation
of the first 6 characters of the order id with the last 5 digits of the
`created_at` timestamp; and neither handler issues any backend
request. -/
theorem receipt_pure_and_offline (plat : Platform) (o o2 : Order)
    (heq : o = o2) :
    handlePrint plat o = handlePrint plat o2 ∧
    handleDownload plat o = handleDownload plat o2 ∧
    handlePrint plat o
      = [BrowserEffect.openWindow "" "_blank",
         BrowserEffect.writeDocument (receiptContent plat o),
         BrowserEffect.printDialog,
         BrowserEffect.closeWindow] ∧
    handleDownload plat o
      = [BrowserEffect.createBlob (receiptContent plat o) "text/html",
         BrowserEffect.triggerDownload ("order-receipt-" ++ o.id.take 8 ++ ".html")] ∧
    generateVerificationCode plat o
      = (o.id.take 6 ++ (toString (plat.getTime o.created_at)).takeRight 5).toUpper ∧
    (handlePrint plat o).all (fun e => ! e.isBackendCall) = true ∧
    (handleDownload plat o).all (fun e => ! e.isBackendCall) = true := by
  subst heq
  exact ⟨rfl, rfl, rfl, rfl, rfl, rfl, rfl⟩

/-- Witness for C4 at a concrete platform and order. -/
theorem receipt_pure_and_offline_witness :
    handlePrint ⟨fun _ => 1739999999999, fun _ => "2/19/2025", fun _ => "1,000"⟩
        ⟨"abcdef12-3456", "2025-02-19T00:00:00Z", 1000, "completed",
          "Ada", "0800", "12 Main St", none, none, []⟩
      = handlePrint ⟨fun _ => 1739999999999, fun _ => "2/19/2025", fun _ => "1,000"⟩
        ⟨"abcdef12-3456", "2025-02-19T00:00:00Z", 1000, "completed",
          "Ada", "0800", "12 Main St", none, none, []⟩ ∧
    handleDownload ⟨fun _ => 1739999999999, fun _ => "2/19/2025", fun _ => "1,000"⟩
        ⟨"abcdef12-3456", "2025-02-19T00:00:00Z", 1000, "completed",
          "Ada", "0800", "12 Main St", none, none, []⟩
      = handleDownload ⟨fun _ => 1739999999999, fun _ => "2/19/2025", fun _ => "1,000"⟩
        ⟨"abcdef12-3456", "2025-02-19T00:00:00Z", 1000, "completed",
          "Ada", "0800", "12 Main St", none, none, []⟩ ∧
    handlePrint ⟨fun _ => 1739999999999, fun _ => "2/19/2025", fun _ => "1,000"⟩
        ⟨"abcdef12-3456", "2025-02-19T00:00:00Z", 1000, "completed",
          "Ada", "0800", "12 Main St", none, none, []⟩
      = [BrowserEffect.openWindow "" "_blank",
         BrowserEffect.writeDocument (receiptContent
           ⟨fun _ => 1739999999999, fun _ => "2/19/2025", fun _ => "1,000"⟩
           ⟨"abcdef12-3456", "2025-02-19T00:00:00Z", 1000, "completed",
             "Ada", "0800", "12 Main St", none, none, []⟩),
         BrowserEffect.printDialog,
         BrowserEffect.closeWindow] ∧
    handleDownload ⟨fun _ => 1739999999999, fun _ => "2/19/2025", fun _ => "1,000"⟩
        ⟨"abcdef12-3456", "2025-02-19T00:00:00Z", 1000, "completed",
          "Ada", "0800", "12 Main St", none, none, []⟩
      = [BrowserEffect.createBlob (receiptContent
           ⟨fun _ => 1739999999999, fun _ => "2/19/2025", fun _ => "1,000"⟩
           ⟨"abcdef12-3456", "2025-02-19T00:00:00Z", 1000, "completed",
             "Ada", "0800", "12 Main St", none, none, []⟩) "text/html",
         BrowserEffect.triggerDownload
           ("order-receipt-" ++ "abcdef12-3456".take 8 ++ ".html")] ∧
    generateVerificationCode
        ⟨fun _ => 1739999999999, fun _ => "2/19/2025", fun _ => "1,000"⟩
        ⟨"abcdef12-3456", "2025-02-19T00:00:00Z", 1000, "completed",
          "Ada", "0800", "12 Main St", none, none, []⟩
      = ("abcdef12-3456".take 6
          ++ (toString ((1739999999999 : ℤ))).takeRight 5).toUpper ∧
    (handlePrint ⟨fun _ => 1739999999999, fun _ => "2/19/2025", fun _ => "1,000"⟩
        ⟨"abcdef12-3456", "2025-02-19T00:00:00Z", 1000, "completed",
          "Ada", "0800", "12 Main St", none, none, []⟩).all
        (fun e => ! e.isBackendCall) = true ∧
    (handleDownload ⟨fun _ => 1739999999999, fun _ => "2/19/2025", fun _ => "1,000"⟩
        ⟨"abcdef12-3456", "2025-02-19T00:00:00Z", 1000, "completed",
          "Ada", "0800", "12 Main St", none, none, []⟩).all
        (fun e => ! e.isBackendCall) = true :=
  receipt_pure_and_offline
    ⟨fun _ => 1739999999999, fun _ => "2/19/2025", fun _ => "1,000"⟩
    ⟨"abcdef12-3456", "2025-02-19T00:00:00Z", 1000, "completed",
      "Ada", "0800", "12 Main St", none, none, []⟩
    ⟨"abcdef12-3456", "2025-02-19T00:00:00Z", 1000, "completed",
      "Ada", "0800", "12 Main St", none, none, []⟩
    rfl
